import Mathlib

/-
Verification of the PyCharacterAI request core (src/PyCharacterAI/requester.py)
and of the synchronous character methods
(src/PyCharacterAI/methods/synchronous/character.py).

The Python code is shallowly embedded: the mutable local state of
`Requester.request` (the `response` variable, the printed diagnostics, the
route-handler actions) is threaded explicitly, and each awaited browser
operation (in-page fetch, `page.route`, `page.goto`, `page.wait_for_timeout`,
`page.unroute`) is an oracle in a `PageEnv` record whose outcome is either a
returned value or a raised exception (`Except PyErr`).
-/

namespace PyCharacterAI

/-- Python exception values tracked by the embedding. -/
inductive PyErr where
  | pageError (msg : String)
  | typeError (msg : String)
  deriving Repr, DecidableEq

/-- Message printed for an exception (`print(e)`). -/
def pyErrMsg : PyErr → String
  | PyErr.pageError m => m
  | PyErr.typeError m => m

/-- True exactly when an oracle outcome is a raised exception. -/
def exceptErr {α : Type} : Except PyErr α → Bool
  | Except.error _ => true
  | Except.ok _ => false

/-- The opening-brace character, written by code point to keep brace
characters out of string and character literals. -/
def lbrace : Char := Char.ofNat 123

/-- The closing-brace character. -/
def rbrace : Char := Char.ofNat 125

/-- JavaScript line terminators, which `.` in a regex never matches. -/
def isLineTerm (c : Char) : Bool :=
  c = '\n' || c = '\r' || c = Char.ofNat 0x2028 || c = Char.ofNat 0x2029

/-- Split a character list at line terminators (the terminators themselves are
dropped); a regex match of a `.`-based pattern must lie inside one segment. -/
def splitSegs : List Char → List (List Char)
  | [] => [[]]
  | c :: rest =>
    if isLineTerm c then [] :: splitSegs rest
    else
      match splitSegs rest with
      | [] => [[c]]
      | seg :: segs => (c :: seg) :: segs

/-- Index of the last occurrence of `c` in `s`, if any. -/
def lastIdxOf (c : Char) (s : List Char) : Option Nat :=
  match s.reverse.findIdx? (fun d => d = c) with
  | none => none
  | some k => some (s.length - 1 - k)

/-- The single match of the greedy JavaScript regex `/\x7b.*\x7d/` inside one
line-terminator-free segment.  The greedy engine starts the match at the first
opening brace and backtracks `.*` to the last closing brace of the segment, so
there is a match exactly when the segment's last closing brace lies after its
first opening brace; after that match no closing brace remains, so a segment
contributes at most one match to the global (`g`) match list. -/
def segMatch (s : List Char) : Option (List Char) :=
  match s.findIdx? (fun d => d = lbrace), lastIdxOf rbrace s with
  | some i, some j => if i < j then some ((s.drop i).take (j - i + 1)) else none
  | some _, none => none
  | none, _ => none

/-- The match list produced by `data.match(/\x7b.*\x7d/g)` in the streaming
script of `Requester.request` (requester.py line 94): the per-segment matches,
in order.  An empty list models the `null` return of `String.match`. -/
def jsMatch (data : String) : List String :=
  (splitSegs data.toList).filterMap (fun seg => (segMatch seg).map List.asString)

/-- The in-page streaming script (requester.py lines 90-109) applied to the
fetched response text.  Note the script reads
`matches[matches.length - 1]` before its `if (!matches)` null check, so when
there is no match it throws a TypeError (which `page.evaluate` re-raises)
instead of returning the `code: 500` object; when there is at least one match
it returns code 200 together with the last match. -/
def streamScript (data : String) : Except PyErr (Nat × String) :=
  match (jsMatch data).getLast? with
  | none => Except.error (PyErr.typeError "Cannot read properties of null")
  | some t => Except.ok (200, t)

/-- The options dict of a dispatch, after the `options.get` defaulting in
requester.py lines 67-70. -/
structure RequestOptions where
  method : String := "GET"
  headers : List (String × String) := []
  body : String := ""
  deriving Repr, DecidableEq

/-- One network request observed by the installed route handler; the handler
only ever inspects `is_navigation_request()`. -/
structure ReqEvent where
  isNavigation : Bool
  deriving Repr, DecidableEq

/-- What the route handler did with one observed request. -/
inductive RouteAction where
  | abort
  | continueWith (method : String) (headers : List (String × String))
      (postData : Option String)
  deriving Repr, DecidableEq

/-- One invocation of `request_handler` (requester.py lines 123-139): given the
captured `initial_request` flag and the observed request, produce the route
action and the new flag value.  The abort branch returns before the flag is
cleared; the continue branch clears it and substitutes the dispatch's method
and headers, attaching `post_data` only for non-GET methods. -/
def handleOne (method : String) (headers : List (String × String))
    (body : String) (initialRequest : Bool) (ev : ReqEvent) :
    RouteAction × Bool :=
  if ev.isNavigation && !initialRequest then (RouteAction.abort, initialRequest)
  else
    let act :=
      if method = "GET" then RouteAction.continueWith method headers none
      else RouteAction.continueWith method headers (some body)
    (act, false)

/-- Run the route handler over a list of observed requests, threading the
`initial_request` flag. -/
def runHandlerAux (method : String) (headers : List (String × String))
    (body : String) : Bool → List ReqEvent → List RouteAction
  | _, [] => []
  | init, ev :: rest =>
    let p := handleOne method headers body init ev
    p.1 :: runHandlerAux method headers body p.2 rest

/-- The actions taken by one dispatch's route handler, starting from
`initial_request = True` (requester.py line 121). -/
def runHandler (method : String) (headers : List (String × String))
    (body : String) (evs : List ReqEvent) : List RouteAction :=
  runHandlerAux method headers body true evs

/-- A navigation response as returned by `page.goto` (only its status is ever
inspected by the claims). -/
structure NavResp where
  status : Nat
  deriving Repr, DecidableEq

/-- The value of the Python `response` variable at the end of a dispatch:
either the dict built by the streaming path (after line 116-117 it carries
`status` and `text` keys) or the navigation response of `page.goto`. -/
inductive RVal where
  | stream (status : Nat) (text : String)
  | nav (r : NavResp)
  deriving Repr, DecidableEq

/-- A printed diagnostic line.  `innerError` is the pair of prints of the
inner `except` (requester.py lines 146-147), `outerError` the pair of prints
of the outer `except` (lines 154-155). -/
inductive LogEvent where
  | innerError (e : PyErr)
  | outerError (e : PyErr)
  deriving Repr, DecidableEq

/-- True when the log contains an outer-boundary diagnostic. -/
def hasOuterLog (l : List LogEvent) : Bool :=
  l.any fun ev => match ev with
    | LogEvent.outerError _ => true
    | _ => false

/-- True when the log contains an inner (standard-path) diagnostic. -/
def hasInnerLog (l : List LogEvent) : Bool :=
  l.any fun ev => match ev with
    | LogEvent.innerError _ => true
    | _ => false

/-- Oracle outcomes of the awaited browser operations during one dispatch. -/
structure PageEnv where
  /-- outcome of the in-page `fetch` plus `response.text()` in the streaming
  script; an error models the fetch itself throwing inside `page.evaluate`. -/
  fetchText : Except PyErr String := Except.ok ""
  /-- outcome of `page.route` installation (line 141). -/
  route : Except PyErr Unit := Except.ok ()
  /-- outcome of `page.goto url` (line 143): raised, or an optional response. -/
  gotoResult : Except PyErr (Option NavResp) := Except.ok none
  /-- outcome of `page.wait_for_timeout(500)` (line 144). -/
  wait : Except PyErr Unit := Except.ok ()
  /-- outcome of `page.unroute` in the `finally` block (line 149). -/
  unroute : Except PyErr Unit := Except.ok ()
  /-- the requests routed through the installed handler during navigation. -/
  events : List ReqEvent := []

/-- Observable outcome of one dispatch: the final `response` value, the
printed diagnostics, the route-handler actions, the URL actually handed to
`page.goto` or to the in-page fetch, and the exception the outer `except`
caught (instrumentation for the failure policy). -/
structure ReqOutput where
  response : Option RVal := none
  log : List LogEvent := []
  actions : List RouteAction := []
  usedUrl : Option String := none
  caught : Option PyErr := none
  deriving Repr, DecidableEq

/-- Does `p` start `s`? -/
def listStartsWith : List Char → List Char → Bool
  | [], _ => true
  | _ :: _, [] => false
  | c :: cs, d :: ds => c = d && listStartsWith cs ds

/-- Python `str.endswith`. -/
def strEndsWith (s sfx : String) : Bool :=
  listStartsWith sfx.toList.reverse s.toList.reverse

/-- Python `str.replace` (replace every non-overlapping occurrence, scanning
left to right), via a character-count fuel that each step strictly consumes. -/
def pyReplaceAux (pat repl : List Char) : Nat → List Char → List Char
  | _, [] => []
  | 0, l => l
  | fuel + 1, c :: rest =>
    if !pat.isEmpty && listStartsWith pat (c :: rest) then
      repl ++ pyReplaceAux pat repl fuel ((c :: rest).drop pat.length)
    else c :: pyReplaceAux pat repl fuel rest

/-- Python `str.replace` on strings. -/
def pyReplace (s pat repl : String) : String :=
  (pyReplaceAux pat.toList repl.toList s.toList.length s.toList).asString

/-- The known lazy-authentication probe endpoint (requester.py line 151). -/
def authUrl : String := "https://beta.character.ai/chat/auth/lazy/"

/-- The body of the outer `try` of `Requester.request` (requester.py lines
77-149), returning the state accumulated so far together with the exception
(if any) that escapes to the outer `except`.

Line 74-75 of the source first computes
`url.replace('beta.character.ai', 'plus.character.ai')` when `use_plus` is
set, but never assigns the result, so the `url` used below is always the
caller's original one; the discarded computation is modelled by `pyReplace`
elsewhere in this file.

Streaming path (`url` ends with `"/streaming/"`): `page.evaluate` runs the
fetch and the match extraction; on success the dict is given `status` and
`text` keys (lines 116-117).  Standard path: the inner `try` installs the
route handler, navigates and waits; the inner `except` prints a diagnostic
for any exception; the `finally` always calls `unroute`, whose own exception
propagates outward with the `response` value accumulated so far retained. -/
def requestTry (use_plus : Bool) (url : String) (opts : RequestOptions)
    (env : PageEnv) : ReqOutput × Option PyErr :=
  if strEndsWith url "/streaming/" then
    match env.fetchText with
    | Except.error e => ({ usedUrl := some url }, some e)
    | Except.ok data =>
      match streamScript data with
      | Except.error e => ({ usedUrl := some url }, some e)
      | Except.ok res =>
        ({ response := some (RVal.stream res.1 res.2), usedUrl := some url },
         none)
  else
    let inner : ReqOutput × Option PyErr :=
      match env.route with
      | Except.error e => ({}, some e)
      | Except.ok _ =>
        let st : ReqOutput :=
          { actions := runHandler opts.method opts.headers opts.body env.events }
        match env.gotoResult with
        | Except.error e => ({ st with usedUrl := some url }, some e)
        | Except.ok r =>
          let st := { st with usedUrl := some url,
                              response := r.map RVal.nav }
          match env.wait with
          | Except.error e => (st, some e)
          | Except.ok _ => (st, none)
    let st :=
      match inner.2 with
      | some e => { inner.1 with log := inner.1.log ++ [LogEvent.innerError e] }
      | none => inner.1
    match env.unroute with
    | Except.error e => (st, some e)
    | Except.ok _ => (st, none)

/-- `Requester.request` (requester.py lines 64-157).  The second component is
an exception propagating out of the call; the outer `except` (lines 150-156)
catches every exception of the `try` body, prints a diagnostic unless the url
is exactly the lazy-authentication probe, and falls through to
`return response`, so the second component is always `none`. -/
def request (use_plus : Bool) (url : String) (opts : RequestOptions)
    (env : PageEnv) : ReqOutput × Option PyErr :=
  match requestTry use_plus url opts env with
  | (st, none) => (st, none)
  | (st, some e) =>
    let authenticating := url = authUrl
    ({ st with caught := some e,
               log := if authenticating then st.log
                      else st.log ++ [LogEvent.outerError e] },
     none)

/-- The per-instance state of a `Requester` session (requester.py lines 6-15),
plus counters of how many browsers and pages the session has ever launched
(to state the exactly-one invariants). -/
structure Session where
  browsersLaunched : Nat := 0
  pagesCreated : Nat := 0
  browser : Option Nat := none
  page : Option Nat := none
  initialized : Bool := false
  deriving Repr, DecidableEq

/-- `Requester.is_initialized` (requester.py lines 20-21). -/
def isInitializedSession (s : Session) : Bool := s.initialized

/-- `Requester.initialize` (requester.py lines 23-62): returns immediately when
already initialized; otherwise launches one browser, creates one page, and
sets the initialized flag.  Launch success is assumed, matching the claim's
premise of a completed first call. -/
def initializeSession (s : Session) : Session :=
  if isInitializedSession s then s
  else
    { s with
      browsersLaunched := s.browsersLaunched + 1,
      browser := some s.browsersLaunched,
      pagesCreated := s.pagesCreated + 1,
      page := some s.pagesCreated,
      initialized := true }

/-- The typed errors of PyCharacterAI/exceptions.py raised by the synchronous
character methods. -/
inductive DomainError where
  | fetchError (msg : String)
  | searchError (msg : String)
  | actionError (msg : String)
  | createError (msg : String)
  | editError (msg : String)
  | invalidArgumentError (msg : String)
  deriving Repr, DecidableEq

/-- How a synchronous character method can fail: by raising one of the
library's typed errors, or by an untyped Python exception — `attributeError`
models `None.status_code` when the dispatch produced no response,
`keyError` models `response['character']` on a payload without that key. -/
inductive PyFailure where
  | raised (e : DomainError)
  | attributeError
  | keyError
  deriving Repr, DecidableEq

/-- The fields of the parsed JSON payload that the character methods read. -/
structure JsonBody where
  status : Option String := none
  error : Option String := none
  character : Option String := none
  characters : Option (List String) := none
  deriving Repr, DecidableEq

/-- A dispatch response as consumed by the domain layer: an HTTP status code
and the parsed JSON payload. -/
structure DResp where
  status_code : Nat
  json : JsonBody := {}
  deriving Repr, DecidableEq

/-- `CharacterMethods.fetch_character_info` (character.py lines 87-105),
as a function of the dispatch result.  A missing result (`none`) models the
requester returning `None`: the guard `request.status_code == 200` then
raises AttributeError before any typed error can be produced. -/
def fetch_character_info (r : Option DResp) : Except PyFailure String :=
  match r with
  | none => Except.error PyFailure.attributeError
  | some resp =>
    if resp.status_code = 200 then
      if resp.json.status.getD "" = "NOT_OK" then
        Except.error (PyFailure.raised (DomainError.fetchError
          ("Cannot fetch character information. " ++ resp.json.error.getD "")))
      else
        match resp.json.character with
        | some c => Except.ok c
        | none => Except.error PyFailure.keyError
    else
      Except.error (PyFailure.raised (DomainError.fetchError
        "Cannot fetch character information."))

/-- `CharacterMethods.search_characters` (character.py lines 107-117). -/
def search_characters (r : Option DResp) : Except PyFailure (List String) :=
  match r with
  | none => Except.error PyFailure.attributeError
  | some resp =>
    if resp.status_code = 200 then Except.ok (resp.json.characters.getD [])
    else
      Except.error (PyFailure.raised (DomainError.searchError
        "Cannot search for characters."))

/-- `CharacterMethods.character_vote` (character.py lines 131-146). -/
def character_vote (r : Option DResp) : Except PyFailure Bool :=
  match r with
  | none => Except.error PyFailure.attributeError
  | some resp =>
    if resp.status_code = 200 then Except.ok (resp.json.status = some "OK")
    else
      Except.error (PyFailure.raised (DomainError.actionError
        "Cannot vote for character."))

/-- Python `str.upper` restricted to its ASCII behaviour (all arguments the
source compares against are ASCII). -/
def pyUpper (s : String) : String := (s.toList.map Char.toUpper).asString

/-- The argument checks shared verbatim by `create_character` (character.py
lines 151-175) and `edit_character` (lines 213-237), in source order: the
message tail of the first check that fires, or `none` when every check
passes.  The caller prefixes "Cannot create character. " or
"Cannot edit character. ".  Note the title, description and definition checks
are gated on Python truthiness, so empty strings skip them; the visibility
comparison happens after upcasing. -/
def character_args_invalid (name greeting title description defn
    visibility : String) : Option String :=
  if name.length < 3 || 20 < name.length then
    some "Name must be at least 3 characters and no more than 20."
  else if greeting.length < 3 || 2048 < greeting.length then
    some "Greeting must be at least 3 characters and no more than 2048."
  else if !(["UNLISTED", "PUBLIC", "PRIVATE"].contains (pyUpper visibility)) then
    some "Visibility must be \"unlisted\", \"public\" or \"private\""
  else if !(title == "") && (title.length < 3 || 50 < title.length) then
    some "Title must be at least 3 characters and no more than 50."
  else if !(description == "") && 500 < description.length then
    some "Description must be no more than 500 characters."
  else if !(defn == "") && 32000 < defn.length then
    some "Definition must be no more than 32000 characters."
  else none

/-- Shared response handling of `create_character` and `edit_character`
(character.py lines 202-208 and 265-271) parameterised by the action word and
typed-error constructor. -/
def handleCreateEditResponse (word : String) (mk : String → DomainError)
    (r : Option DResp) : Except PyFailure String :=
  match r with
  | none => Except.error PyFailure.attributeError
  | some resp =>
    if resp.status_code = 200 then
      if resp.json.status = some "OK" && resp.json.character.isSome then
        Except.ok (resp.json.character.getD "")
      else
        Except.error (PyFailure.raised (mk
          ("Cannot " ++ word ++ " character. " ++ resp.json.error.getD "")))
    else
      Except.error (PyFailure.raised (mk ("Cannot " ++ word ++ " character.")))

/-- `CharacterMethods.create_character` (character.py lines 148-208) as a
function of its validated arguments and of the dispatch result; the second
component records whether the requester was invoked (the dispatch of lines
177-200 is reached only when every argument check passed). -/
def create_character (name greeting title description defn
    visibility : String) (r : Option DResp) : Except PyFailure String × Bool :=
  match character_args_invalid name greeting title description defn visibility with
  | some msg =>
    (Except.error (PyFailure.raised (DomainError.invalidArgumentError
      ("Cannot create character. " ++ msg))), false)
  | none => (handleCreateEditResponse "create" DomainError.createError r, true)

/-- `CharacterMethods.edit_character` (character.py lines 210-271), with the
same shape as `create_character`. -/
def edit_character (name greeting title description defn
    visibility : String) (r : Option DResp) : Except PyFailure String × Bool :=
  match character_args_invalid name greeting title description defn visibility with
  | some msg =>
    (Except.error (PyFailure.raised (DomainError.invalidArgumentError
      ("Cannot edit character. " ++ msg))), false)
  | none => (handleCreateEditResponse "edit" DomainError.editError r, true)

/-- True when the outcome is a raised `InvalidArgumentError`. -/
def raisedInvalidArg {α : Type} : Except PyFailure α → Bool
  | Except.error (PyFailure.raised (DomainError.invalidArgumentError _)) => true
  | _ => false

/-- The violation predicate of claim C10, in the claim's own terms: name
length outside 3..20, greeting length outside 3..2048, visibility not among
UNLISTED, PUBLIC, PRIVATE after upcasing, a non-empty title of length outside
3..50, a description longer than 500, or a definition longer than 32000. -/
def violatesC10 (name greeting title description defn
    visibility : String) : Bool :=
  name.length < 3 || 20 < name.length ||
  (greeting.length < 3 || 2048 < greeting.length) ||
  !(["UNLISTED", "PUBLIC", "PRIVATE"].contains (pyUpper visibility)) ||
  (!(title == "") && (title.length < 3 || 50 < title.length)) ||
  500 < description.length ||
  32000 < defn.length

example :
    jsMatch "junk\x7b\"a\":1\x7dmore\x7b\"a\":1,\"b\":2\x7d" =
      ["\x7b\"a\":1\x7dmore\x7b\"a\":1,\"b\":2\x7d"] := by decide

example : jsMatch "junk" = [] := by decide

example : strEndsWith "https://x/streaming/" "/streaming/" = true := by decide

example : strEndsWith authUrl "/streaming/" = false := by decide

example :
    pyReplace "https://beta.character.ai/chat/hello/" "beta.character.ai"
      "plus.character.ai" = "https://plus.character.ai/chat/hello/" := by decide

/-- In every standard-path dispatch whose route installation succeeds, the
recorded handler actions are exactly the run of `request_handler` over the
observed requests, whatever the other oracles do. -/
theorem standard_actions (use_plus : Bool) (url : String)
    (opts : RequestOptions) (env : PageEnv)
    (hstd : strEndsWith url "/streaming/" = false)
    (hroute : env.route = Except.ok ()) :
    (request use_plus url opts env).1.actions =
      runHandler opts.method opts.headers opts.body env.events := by
  rcases env with ⟨ft, rt, gr, w, ur, evs⟩
  simp only at hroute
  subst hroute
  unfold request requestTry
  rcases gr with e | r <;> rcases w with e' | ⟨⟩ <;> rcases ur with e'' | ⟨⟩ <;>
    simp [hstd]

/-- The `initial_request` flag is false after the handler has consumed any
request while the flag was false. -/
theorem handleOne_false_snd (method : String) (headers : List (String × String))
    (body : String) (ev : ReqEvent) :
    (handleOne method headers body false ev).2 = false := by
  unfold handleOne
  split <;> rfl

/-- With the `initial_request` flag already cleared, the handler aborts every
navigation request it observes. -/
theorem runHandlerAux_false_abort (method : String)
    (headers : List (String × String)) (body : String)
    (evs : List ReqEvent) (i : Nat) (ev : ReqEvent)
    (hev : evs[i]? = some ev) (hnav : ev.isNavigation = true) :
    (runHandlerAux method headers body false evs)[i]? =
      some RouteAction.abort := by
  induction evs generalizing i with
  | nil => simp at hev
  | cons e es ih =>
    cases i with
    | zero =>
      simp only [List.getElem?_cons_zero, Option.some.injEq] at hev
      subst hev
      unfold runHandlerAux handleOne
      simp [hnav]
    | succ j =>
      simp only [List.getElem?_cons_succ] at hev
      unfold runHandlerAux
      simp only [List.getElem?_cons_succ]
      rw [handleOne_false_snd]
      exact ih j hev

/-- Any navigation request after the first observed request is aborted. -/
theorem runHandler_abort_after_first (method : String)
    (headers : List (String × String)) (body : String)
    (evs : List ReqEvent) (i : Nat) (ev : ReqEvent)
    (hi : 1 ≤ i) (hev : evs[i]? = some ev) (hnav : ev.isNavigation = true) :
    (runHandler method headers body evs)[i]? = some RouteAction.abort := by
  cases evs with
  | nil => simp at hev
  | cons e es =>
    cases i with
    | zero => omega
    | succ j =>
      simp only [List.getElem?_cons_succ] at hev
      unfold runHandler runHandlerAux
      simp only [List.getElem?_cons_succ]
      have h2 : (handleOne method headers body true e).2 = false := by
        unfold handleOne
        simp
      rw [h2]
      exact runHandlerAux_false_abort method headers body es j ev hev hnav

/-- The returned response of a dispatch does not depend on the requests the
route handler observed. -/
theorem request_response_events_indep (use_plus : Bool) (url : String)
    (opts : RequestOptions) (env : PageEnv) (evs2 : List ReqEvent) :
    (request use_plus url opts { env with events := evs2 }).1.response =
      (request use_plus url opts env).1.response := by
  rcases env with ⟨ft, rt, gr, w, ur, evs⟩
  unfold request requestTry
  by_cases hs : strEndsWith url "/streaming/" = true
  · rcases ft with e | data
    · simp [hs]
    · rcases hsc : streamScript data with e' | p <;> simp [hs, hsc]
  · rcases rt with e | ⟨⟩ <;> rcases gr with e' | r <;> rcases w with e'' | ⟨⟩ <;>
      rcases ur with e''' | ⟨⟩ <;> simp [hs]

/-- C2: for every url, options and oracle behaviour, `Requester.request`
returns a value and never propagates an exception to the caller: every
failure raised by path selection, route installation, navigation, waiting,
teardown or in-page evaluation is caught by the inner or outer `except`. -/
theorem request_never_propagates (use_plus : Bool) (url : String)
    (opts : RequestOptions) (env : PageEnv) :
    (request use_plus url opts env).2 = none := by
  unfold request
  rcases h : requestTry use_plus url opts env with ⟨st, err⟩
  cases err <;> simp

/-- C1 counterexample: on the spec's own streaming example text, the greedy
`/\x7b.*\x7d/g` pattern produces a single match spanning from the first
opening brace to the last closing brace, so the dispatch returns that whole
substring and not the last JSON object `\x7b"a":1,"b":2\x7d` the claim
requires. -/
theorem streaming_last_match_counterexample :
    (request false "https://beta.character.ai/chats/streaming/" {}
        { fetchText :=
            Except.ok "junk\x7b\"a\":1\x7dmore\x7b\"a\":1,\"b\":2\x7d" }).1.response =
      some (RVal.stream 200 "\x7b\"a\":1\x7dmore\x7b\"a\":1,\"b\":2\x7d")
    ∧ ("\x7b\"a\":1\x7dmore\x7b\"a\":1,\"b\":2\x7d" ==
        "\x7b\"a\":1,\"b\":2\x7d") = false := by
  exact ⟨by decide, by decide⟩

/-- C1 amended: for every streaming-path dispatch whose fetched text yields at
least one match of the greedy `/\x7b.*\x7d/g` pattern, the dispatch returns
status 200 with text equal to the last such match (which runs from the first
opening brace to the last closing brace of its line and may therefore span
several JSON objects), and no exception propagates. -/
theorem streaming_returns_last_greedy_match (use_plus : Bool) (url : String)
    (opts : RequestOptions) (env : PageEnv) (data t : String)
    (hs : strEndsWith url "/streaming/" = true)
    (hf : env.fetchText = Except.ok data)
    (hm : (jsMatch data).getLast? = some t) :
    (request use_plus url opts env).1.response = some (RVal.stream 200 t)
    ∧ (request use_plus url opts env).2 = none := by
  have hsc : streamScript data = Except.ok (200, t) := by
    unfold streamScript
    rw [hm]
  have hq : requestTry use_plus url opts env =
      ({ response := some (RVal.stream 200 t), usedUrl := some url }, none) := by
    unfold requestTry
    rw [hf]
    simp [hs, hsc]
  simp [request, hq]

/-- Witness for `streaming_returns_last_greedy_match` at a concrete input. -/
theorem streaming_returns_last_greedy_match_witness :
    (request false "https://x/streaming/" {}
        { fetchText := Except.ok "a\x7b1\x7db\x7b2\x7d" }).1.response =
      some (RVal.stream 200 "\x7b1\x7db\x7b2\x7d")
    ∧ (request false "https://x/streaming/" {}
        { fetchText := Except.ok "a\x7b1\x7db\x7b2\x7d" }).2 = none :=
  streaming_returns_last_greedy_match false "https://x/streaming/" {} _
    "a\x7b1\x7db\x7b2\x7d" "\x7b1\x7db\x7b2\x7d" (by decide) rfl (by decide)

/-- C4 counterexample: a streaming dispatch whose fetched text has no
brace-delimited substring returns Python `None` — a value carrying no status
and no text at all — rather than a failure sentinel with status 500: the
in-page script throws before its null check can build the 500 object. -/
theorem streaming_no_match_counterexample :
    (request false "https://beta.character.ai/chats/streaming/" {}
        { fetchText := Except.ok "junk" }).1.response = none
    ∧ (request false "https://beta.character.ai/chats/streaming/" {}
        { fetchText := Except.ok "junk" }).1.caught =
      some (PyErr.typeError "Cannot read properties of null")
    ∧ (request false "https://beta.character.ai/chats/streaming/" {}
        { fetchText := Except.ok "junk" }).2 = none := by
  exact ⟨by decide, by decide, by decide⟩

/-- C4 amended: for every streaming-path dispatch whose fetched text contains
no match of the brace pattern, the in-page script throws (it indexes the null
match list before checking it), the dispatcher catches that exception, and
the caller receives `None` — no response object, hence no status and no text
— without any exception propagating. -/
theorem streaming_no_match_returns_none (use_plus : Bool) (url : String)
    (opts : RequestOptions) (env : PageEnv) (data : String)
    (hs : strEndsWith url "/streaming/" = true)
    (hf : env.fetchText = Except.ok data)
    (hm : jsMatch data = []) :
    (request use_plus url opts env).1.response = none
    ∧ (request use_plus url opts env).1.caught.isSome = true
    ∧ (request use_plus url opts env).2 = none := by
  have hsc : streamScript data =
      Except.error (PyErr.typeError "Cannot read properties of null") := by
    unfold streamScript
    rw [hm]
    rfl
  have hq : requestTry use_plus url opts env =
      ({ usedUrl := some url },
       some (PyErr.typeError "Cannot read properties of null")) := by
    unfold requestTry
    rw [hf]
    simp [hs, hsc]
  simp [request, hq]

/-- Witness for `streaming_no_match_returns_none` at a concrete input. -/
theorem streaming_no_match_returns_none_witness :
    (request false "https://x/streaming/" {}
        { fetchText := Except.ok "junk" }).1.response = none
    ∧ (request false "https://x/streaming/" {}
        { fetchText := Except.ok "junk" }).1.caught.isSome = true
    ∧ (request false "https://x/streaming/" {}
        { fetchText := Except.ok "junk" }).2 = none :=
  streaming_no_match_returns_none false "https://x/streaming/" {} _
    "junk" (by decide) rfl (by decide)

/-- C3: with the alternate-host flag enabled and a beta-host url, the URL
actually handed to navigation is still the original url — the source computes
`url.replace('beta.character.ai', 'plus.character.ai')` but discards the
result — even though the replacement, had it been kept, yields the distinct
plus-host url the claim requires. -/
theorem use_plus_rewrite_discarded :
    (request true "https://beta.character.ai/chat/hello/" {}
        { gotoResult := Except.ok (some ⟨200⟩) }).1.usedUrl =
      some "https://beta.character.ai/chat/hello/"
    ∧ pyReplace "https://beta.character.ai/chat/hello/" "beta.character.ai"
        "plus.character.ai" = "https://plus.character.ai/chat/hello/"
    ∧ ("https://plus.character.ai/chat/hello/" ==
        "https://beta.character.ai/chat/hello/") = false := by
  exact ⟨by decide, by decide, by decide⟩

/-- C8: a second call to `initialize` on any session is a no-op (it returns
the state of the first call unchanged, browser and page handles included),
and from a fresh session two consecutive calls launch exactly one browser and
create exactly one page. -/
theorem initialize_idempotent (s : Session) :
    initializeSession (initializeSession s) = initializeSession s
    ∧ (initializeSession (initializeSession ({} : Session))).browsersLaunched = 1
    ∧ (initializeSession (initializeSession ({} : Session))).pagesCreated = 1 := by
  refine ⟨?_, by decide, by decide⟩
  by_cases h : s.initialized
  · simp [initializeSession, isInitializedSession, h]
  · simp [initializeSession, isInitializedSession, h]

/-- C6: in every standard-path dispatch whose first observed request is the
top-level navigation, that request is continued with exactly the dispatch's
method and headers, with the body attached exactly when the method is not
GET — replacing the browser's default navigation request shape. -/
theorem first_navigation_continued (use_plus : Bool) (url : String)
    (opts : RequestOptions) (env : PageEnv) (ev : ReqEvent)
    (rest : List ReqEvent)
    (hstd : strEndsWith url "/streaming/" = false)
    (hroute : env.route = Except.ok ())
    (hev : env.events = ev :: rest)
    (hnav : ev.isNavigation = true) :
    (request use_plus url opts env).1.actions.head? =
      some (RouteAction.continueWith opts.method opts.headers
        (if opts.method = "GET" then none else some opts.body)) := by
  rw [standard_actions use_plus url opts env hstd hroute, hev]
  by_cases hm : opts.method = "GET" <;>
    simp [runHandler, runHandlerAux, handleOne, hm]

/-- Witness for `first_navigation_continued` at a concrete POST dispatch. -/
theorem first_navigation_continued_witness :
    (request false "https://beta.character.ai/chat/character/info/"
        { method := "POST", headers := [("X-Test", "1")],
          body := "\x7b\"a\":1\x7d" }
        { events := [⟨true⟩] }).1.actions.head? =
      some (RouteAction.continueWith "POST" [("X-Test", "1")]
        (some "\x7b\"a\":1\x7d")) :=
  first_navigation_continued false "https://beta.character.ai/chat/character/info/"
    { method := "POST", headers := [("X-Test", "1")], body := "\x7b\"a\":1\x7d" }
    { events := [⟨true⟩] } ⟨true⟩ [] (by decide) rfl rfl rfl

/-- C7: during a standard-path dispatch, every top-level navigation request
observed after the first request has been consumed is aborted, never
continued; and the requests the handler observes have no effect on the
dispatch's returned response. -/
theorem subsequent_navigation_aborted (use_plus : Bool) (url : String)
    (opts : RequestOptions) (env : PageEnv) (evs2 : List ReqEvent)
    (i : Nat) (ev : ReqEvent)
    (hstd : strEndsWith url "/streaming/" = false)
    (hroute : env.route = Except.ok ())
    (hi : 1 ≤ i)
    (hev : env.events[i]? = some ev)
    (hnav : ev.isNavigation = true) :
    (request use_plus url opts env).1.actions[i]? = some RouteAction.abort
    ∧ (request use_plus url opts { env with events := evs2 }).1.response =
        (request use_plus url opts env).1.response := by
  refine ⟨?_, request_response_events_indep use_plus url opts env evs2⟩
  rw [standard_actions use_plus url opts env hstd hroute]
  exact runHandler_abort_after_first opts.method opts.headers opts.body
    env.events i ev hi hev hnav

/-- Witness for `subsequent_navigation_aborted` at a concrete dispatch whose
page attempts a second navigation. -/
theorem subsequent_navigation_aborted_witness :
    (request false "https://beta.character.ai/chat/hi/" {}
        { events := [⟨true⟩, ⟨true⟩] }).1.actions[1]? = some RouteAction.abort
    ∧ (request false "https://beta.character.ai/chat/hi/" {}
        { events := [] }).1.response =
      (request false "https://beta.character.ai/chat/hi/" {}
        { events := [⟨true⟩, ⟨true⟩] }).1.response :=
  subsequent_navigation_aborted false "https://beta.character.ai/chat/hi/" {}
    { events := [⟨true⟩, ⟨true⟩] } [] 1 ⟨true⟩ (by decide) rfl (by decide) rfl rfl

/-- C5 counterexample: a failing dispatch to the lazy-authentication probe
endpoint does emit a diagnostic: the probe url takes the standard path, a
navigation failure is caught by the inner `except`, and that handler prints
unconditionally — the url exemption only guards the outer handler. -/
theorem auth_probe_inner_diagnostic :
    (request false authUrl {}
        { gotoResult :=
            Except.error (PyErr.pageError "net::ERR_CONNECTION_REFUSED") }).1.log =
      [LogEvent.innerError (PyErr.pageError "net::ERR_CONNECTION_REFUSED")]
    ∧ (request false authUrl {}
        { gotoResult :=
            Except.error (PyErr.pageError "net::ERR_CONNECTION_REFUSED") }).1.response =
      none := by
  exact ⟨by decide, by decide⟩

/-- C5 amended: the url exemption governs only the outer boundary — an outer
diagnostic is emitted exactly when an exception reaches the outer handler and
the url is not the lazy-authentication probe — while the inner diagnostic of
the standard path is emitted for every route-installation, navigation or wait
failure regardless of the url, so a failing dispatch to the probe endpoint
can still log. -/
theorem failure_policy (use_plus : Bool) (url : String)
    (opts : RequestOptions) (env : PageEnv) :
    (hasOuterLog (request use_plus url opts env).1.log = true ↔
      ((request use_plus url opts env).1.caught.isSome = true ∧
        (url == authUrl) = false))
    ∧ (hasInnerLog (request use_plus url opts env).1.log = true ↔
      (strEndsWith url "/streaming/" = false ∧
        (exceptErr env.route || exceptErr env.gotoResult ||
          exceptErr env.wait) = true)) := by
  rcases env with ⟨ft, rt, gr, w, ur, evs⟩
  unfold request requestTry
  by_cases hs : strEndsWith url "/streaming/" = true
  · by_cases ha : url = authUrl
    · subst ha
      exact absurd hs (by decide)
    · rcases ft with e | data
      · simp [hs, ha, hasOuterLog, hasInnerLog, exceptErr,
          beq_eq_false_iff_ne]
      · rcases hsc : streamScript data with e' | p <;>
          simp [hs, ha, hsc, hasOuterLog, hasInnerLog, exceptErr,
            beq_eq_false_iff_ne]
  · by_cases ha : url = authUrl
    · subst ha
      rcases rt with e | ⟨⟩ <;> rcases gr with e' | r <;>
        rcases w with e'' | ⟨⟩ <;> rcases ur with e''' | ⟨⟩ <;>
        simp [hs, hasOuterLog, hasInnerLog, exceptErr]
    · rcases rt with e | ⟨⟩ <;> rcases gr with e' | r <;>
        rcases w with e'' | ⟨⟩ <;> rcases ur with e''' | ⟨⟩ <;>
        simp [hs, ha, hasOuterLog, hasInnerLog, exceptErr,
          beq_eq_false_iff_ne]

/-- C9 counterexample: when the dispatch result is missing entirely (the
requester returned `None`), `fetch_character_info` surfaces an untyped
AttributeError from `None.status_code` instead of raising its typed
FetchError. -/
theorem missing_result_attribute_error :
    fetch_character_info none = Except.error PyFailure.attributeError
    ∧ (PyFailure.attributeError ==
        PyFailure.raised (DomainError.fetchError
          "Cannot fetch character information.")) = false := by
  exact ⟨rfl, by decide⟩

/-- C9 amended: whenever the dispatch result is present but lacks a 200
status, each domain operation raises its own typed error (FetchError,
SearchError, ActionError, CreateError, EditError respectively, the last two
provided their argument checks passed); a missing result instead surfaces an
untyped AttributeError. -/
theorem non200_raises_typed_errors (resp : DResp)
    (name greeting title description defn visibility : String)
    (hst : resp.status_code ≠ 200)
    (hargs : character_args_invalid name greeting title description defn
      visibility = none) :
    fetch_character_info (some resp) =
      Except.error (PyFailure.raised (DomainError.fetchError
        "Cannot fetch character information."))
    ∧ search_characters (some resp) =
      Except.error (PyFailure.raised (DomainError.searchError
        "Cannot search for characters."))
    ∧ character_vote (some resp) =
      Except.error (PyFailure.raised (DomainError.actionError
        "Cannot vote for character."))
    ∧ (create_character name greeting title description defn visibility
        (some resp)).1 =
      Except.error (PyFailure.raised (DomainError.createError
        "Cannot create character."))
    ∧ (edit_character name greeting title description defn visibility
        (some resp)).1 =
      Except.error (PyFailure.raised (DomainError.editError
        "Cannot edit character.")) := by
  refine ⟨?_, ?_, ?_, ?_, ?_⟩ <;>
    simp [fetch_character_info, search_characters, character_vote,
      create_character, edit_character, handleCreateEditResponse, hargs, hst]

/-- Witness for `non200_raises_typed_errors` at a concrete 500 response and
valid creation arguments. -/
theorem non200_raises_typed_errors_witness :
    fetch_character_info (some ⟨500, {}⟩) =
      Except.error (PyFailure.raised (DomainError.fetchError
        "Cannot fetch character information."))
    ∧ search_characters (some ⟨500, {}⟩) =
      Except.error (PyFailure.raised (DomainError.searchError
        "Cannot search for characters."))
    ∧ character_vote (some ⟨500, {}⟩) =
      Except.error (PyFailure.raised (DomainError.actionError
        "Cannot vote for character."))
    ∧ (create_character "abc" "hello" "" "" "" "private"
        (some ⟨500, {}⟩)).1 =
      Except.error (PyFailure.raised (DomainError.createError
        "Cannot create character."))
    ∧ (edit_character "abc" "hello" "" "" "" "private"
        (some ⟨500, {}⟩)).1 =
      Except.error (PyFailure.raised (DomainError.editError
        "Cannot edit character.")) :=
  non200_raises_typed_errors ⟨500, {}⟩ "abc" "hello" "" "" "" "private"
    (by decide) (by decide)

/-- Auxiliary: `isSome` of a chain step of the validation checks. -/
theorem isSome_ite_some {α : Type} (c : Prop) [Decidable c] (a : α)
    (e : Option α) :
    (if c then some a else e).isSome = (decide c || e.isSome) := by
  by_cases h : c <;> simp [h]

/-- Python truthiness gating of a length bound is redundant when the bound is
violated: a string longer than `n` is in particular non-empty. -/
theorem truthiness_gate (s : String) (n : Nat) :
    (!decide (s = "") && decide (n < s.length)) = decide (n < s.length) := by
  by_cases h : s = ""
  · subst h
    simp
  · simp [h]

/-- Boolean string comparison agrees with the decided propositional one. -/
theorem string_beq_eq_decide (s t : String) : (s == t) = decide (s = t) := by
  by_cases h : s = t <;> simp [h]

/-- The source-order validation checks fire exactly on the argument
combinations the claim's violation predicate describes. -/
theorem args_invalid_iff_violates (name greeting title description defn
    visibility : String) :
    (character_args_invalid name greeting title description defn
      visibility).isSome =
      violatesC10 name greeting title description defn visibility := by
  unfold character_args_invalid violatesC10
  rw [isSome_ite_some, isSome_ite_some, isSome_ite_some, isSome_ite_some,
    isSome_ite_some, isSome_ite_some]
  simp [truthiness_gate, string_beq_eq_decide, Bool.or_assoc]

/-- The response handling shared by create and edit never raises an
InvalidArgumentError (create instance). -/
theorem raisedInvalidArg_create_response (r : Option DResp) :
    raisedInvalidArg
      (handleCreateEditResponse "create" DomainError.createError r) = false := by
  rcases r with _ | resp
  · rfl
  · by_cases h : resp.status_code = 200 <;>
      by_cases h2 : (resp.json.status = some "OK" &&
        resp.json.character.isSome) = true <;>
      simp [handleCreateEditResponse, raisedInvalidArg, h, h2]

/-- The response handling shared by create and edit never raises an
InvalidArgumentError (edit instance). -/
theorem raisedInvalidArg_edit_response (r : Option DResp) :
    raisedInvalidArg
      (handleCreateEditResponse "edit" DomainError.editError r) = false := by
  rcases r with _ | resp
  · rfl
  · by_cases h : resp.status_code = 200 <;>
      by_cases h2 : (resp.json.status = some "OK" &&
        resp.json.character.isSome) = true <;>
      simp [handleCreateEditResponse, raisedInvalidArg, h, h2]

/-- C10: `create_character` and `edit_character` dispatch exactly when no
argument constraint of the claim is violated (so an empty title, description
or definition is accepted), and they raise InvalidArgumentError exactly when
one is violated — in particular a violating argument combination never
reaches the requester. -/
theorem create_edit_validate_before_dispatch (name greeting title description
    defn visibility : String) (r : Option DResp) :
    (create_character name greeting title description defn visibility r).2 =
      !violatesC10 name greeting title description defn visibility
    ∧ (edit_character name greeting title description defn visibility r).2 =
      !violatesC10 name greeting title description defn visibility
    ∧ raisedInvalidArg
        (create_character name greeting title description defn visibility r).1 =
      violatesC10 name greeting title description defn visibility
    ∧ raisedInvalidArg
        (edit_character name greeting title description defn visibility r).1 =
      violatesC10 name greeting title description defn visibility := by
  have hk := args_invalid_iff_violates name greeting title description defn
    visibility
  rcases hx : character_args_invalid name greeting title description defn
    visibility with _ | msg
  · rw [hx] at hk
    simp only [Option.isSome_none] at hk
    simp [create_character, edit_character, hx, ← hk,
      raisedInvalidArg_create_response, raisedInvalidArg_edit_response]
  · rw [hx] at hk
    simp only [Option.isSome_some] at hk
    simp [create_character, edit_character, hx, ← hk, raisedInvalidArg]

end PyCharacterAI
